import Mathlib

/-!
Verification of the mock cloud-provider API server
(src/mock-infrastructure/mock-api-server.py).

The development shallowly embeds the request-handling core of the server:
the JSON fixture store, the sliding-window rate limiter, the response
customizer (timestamp / request-id rewriting and override application),
the router, and the per-request pipeline.  Python dictionaries holding
JSON documents are modelled by an inductive `Json` tree; wall-clock times
(`time.time()`) by rationals; the random draws of `random.random()` and
`random.randint(100000, 999999)` by explicit oracle parameters, so the
theorems quantify over all possible draws.

Where the Python code mutates structures in place, the embedding is a
pure function returning the new value; the one place where in-place
mutation is observable through aliasing (`get_response` customizes a
*shallow* copy of the stored fixture, so nested objects stay shared with
the store) is modelled explicitly by `storedTemplateAfterCustomize`,
which computes the value the stored template holds after a customization
call, following the aliasing of the source line by line.
-/

/-- JSON documents, as produced by `json.load`: the value trees held in the
fixture store and returned in response bodies. -/
inductive Json where
  | null : Json
  | bool (b : Bool) : Json
  | num (q : ℚ) : Json
  | str (s : String) : Json
  | arr (xs : List Json) : Json
  | obj (fs : List (String × Json)) : Json
deriving Repr

mutual

/-- Structural equality test for `Json` (the derive handler does not support
this nested inductive, so the instance is built by hand). -/
def Json.beq : Json → Json → Bool
  | .null, .null => true
  | .bool a, .bool b => a == b
  | .num a, .num b => a == b
  | .str a, .str b => a == b
  | .arr a, .arr b => Json.beqItems a b
  | .obj a, .obj b => Json.beqFields a b
  | _, _ => false

def Json.beqItems : List Json → List Json → Bool
  | [], [] => true
  | a :: as, b :: bs => Json.beq a b && Json.beqItems as bs
  | _, _ => false

def Json.beqFields : List (String × Json) → List (String × Json) → Bool
  | [], [] => true
  | (k, v) :: as, (k2, v2) :: bs => k == k2 && Json.beq v v2 && Json.beqFields as bs
  | _, _ => false

end

/-- Correctness of `Json.beq`, packaged as a definition so the decidable
equality instance can be set up before any theorem is stated. -/
def Json.beqIff : ∀ a b : Json, (Json.beq a b = true) ↔ a = b := by
  apply Json.beq.induct
    (motive_1 := fun a b => (Json.beq a b = true) ↔ a = b)
    (motive_2 := fun as bs => (Json.beqFields as bs = true) ↔ as = bs)
    (motive_3 := fun as bs => (Json.beqItems as bs = true) ↔ as = bs)
  · simp [Json.beq]
  · intro a b; simp [Json.beq]
  · intro a b; simp [Json.beq]
  · intro a b; simp [Json.beq]
  · intro a b ih; simpa [Json.beq] using ih
  · intro a b ih; simpa [Json.beq] using ih
  · intro t x h1 h2 h3 h4 h5 h6
    cases t <;> cases x <;>
      first
        | exact (h1 rfl rfl).elim
        | exact (h2 _ _ rfl rfl).elim
        | exact (h3 _ _ rfl rfl).elim
        | exact (h4 _ _ rfl rfl).elim
        | exact (h5 _ _ rfl rfl).elim
        | exact (h6 _ _ rfl rfl).elim
        | simp [Json.beq]
  · simp [Json.beqItems]
  · intro a as b bs ih1 ih2; simp [Json.beqItems, ih1, ih2]
  · intro t x h1 h2
    cases t <;> cases x <;>
      first
        | exact (h1 rfl rfl).elim
        | exact (h2 _ _ _ _ rfl rfl).elim
        | simp [Json.beqItems]
  · simp [Json.beqFields]
  · intro k v as k2 v2 bs ih1 ih2
    simp [Json.beqFields, ih1, ih2, and_assoc]
  · intro t x h1 h2
    cases t <;> cases x <;>
      first
        | exact (h1 rfl rfl).elim
        | exact (h2 _ _ _ _ _ _ rfl rfl).elim
        | simp [Json.beqFields]

instance : DecidableEq Json := fun a b => decidable_of_iff _ (Json.beqIff a b)

/-- Python truthiness of a JSON value (`if value:`): `None`, `False`, `0`,
the empty string, the empty list and the empty dict are falsy. -/
def Json.truthy : Json → Bool
  | .null => false
  | .bool b => b
  | .num q => q != 0
  | .str s => s != ""
  | .arr xs => !xs.isEmpty
  | .obj fs => !fs.isEmpty

/-- `isinstance(value, (dict, list))` in the source. -/
def Json.isContainer : Json → Bool
  | .arr _ => true
  | .obj _ => true
  | _ => false

/-- Membership test `key in ['timestamp', 'created', 'started', 'finished']`
from `MockResponseGenerator.update_timestamps`. -/
def tsKey (k : String) : Bool :=
  k == "timestamp" || k == "created" || k == "started" || k == "finished"

mutual

/-- `MockResponseGenerator.update_timestamps`: recursively overwrite
timestamp-family fields holding truthy values with the string `ts`.
The source mutates its argument in place; this is the pure value it
leaves behind. -/
def updateTimestamps (ts : String) : Json → Json
  | .obj fs => .obj (updateTimestampsFields ts fs)
  | .arr xs => .arr (updateTimestampsItems ts xs)
  | j => j

/-- The dict branch of `update_timestamps`: per-field
`if key in [...] and value: ... elif isinstance(value, (dict, list)): ...`. -/
def updateTimestampsFields (ts : String) : List (String × Json) → List (String × Json)
  | [] => []
  | (k, v) :: rest =>
    (if tsKey k && v.truthy then (k, Json.str ts)
     else if v.isContainer then (k, updateTimestamps ts v)
     else (k, v)) :: updateTimestampsFields ts rest

/-- The list branch of `update_timestamps` (recurse into every item). -/
def updateTimestampsItems (ts : String) : List Json → List Json
  | [] => []
  | x :: rest => updateTimestamps ts x :: updateTimestampsItems ts rest

end

mutual

/-- `MockResponseGenerator.update_request_id`: recursively overwrite every
`request_id` field with `req_<n>` where `n` is a fresh draw of
`random.randint(100000, 999999)`.  The independent draws are modelled by the
oracle `f : ℕ → ℕ` together with a threaded draw counter; the result pairs
the rewritten document with the counter after the call. -/
def updateRequestId (f : ℕ → ℕ) : Json → ℕ → Json × ℕ
  | .obj fs, n =>
    let r := updateRequestIdFields f fs n
    (.obj r.1, r.2)
  | .arr xs, n =>
    let r := updateRequestIdItems f xs n
    (.arr r.1, r.2)
  | j, n => (j, n)

/-- The dict branch of `update_request_id`:
`if key == 'request_id': ... elif isinstance(value, (dict, list)): ...`. -/
def updateRequestIdFields (f : ℕ → ℕ) : List (String × Json) → ℕ → List (String × Json) × ℕ
  | [], n => ([], n)
  | (k, v) :: rest, n =>
    if k == "request_id" then
      let r := updateRequestIdFields f rest (n + 1)
      ((k, Json.str ("req_" ++ toString (f n))) :: r.1, r.2)
    else if v.isContainer then
      let rv := updateRequestId f v n
      let r := updateRequestIdFields f rest rv.2
      ((k, rv.1) :: r.1, r.2)
    else
      let r := updateRequestIdFields f rest n
      ((k, v) :: r.1, r.2)

/-- The list branch of `update_request_id`. -/
def updateRequestIdItems (f : ℕ → ℕ) : List Json → ℕ → List Json × ℕ
  | [], n => ([], n)
  | x :: rest, n =>
    let rx := updateRequestId f x n
    let r := updateRequestIdItems f rest rx.2
    (rx.1 :: r.1, r.2)

end

mutual

/-- `MockResponseGenerator.deep_update`: replace the value of every field
named `key`, anywhere in the tree, by `val`.  The source assigns first and
then recurses over all current values, so it also walks into the freshly
assigned `val`; that walk only matters when `val` itself contains a
container field named `key` (in which case the source builds a cyclic
object or recurses forever, and the request falls into the catch-all
handler).  The embedding covers the terminating inputs, on which the walk
into `val` is a no-op. -/
def deepUpdate (key : String) (val : Json) : Json → Json
  | .obj fs => .obj (deepUpdateFields key val fs)
  | .arr xs => .arr (deepUpdateItems key val xs)
  | j => j

def deepUpdateFields (key : String) (val : Json) : List (String × Json) → List (String × Json)
  | [] => []
  | (k, v) :: rest =>
    (if k == key then (k, val)
     else if v.isContainer then (k, deepUpdate key val v)
     else (k, v)) :: deepUpdateFields key val rest

def deepUpdateItems (key : String) (val : Json) : List Json → List Json
  | [] => []
  | x :: rest => deepUpdate key val x :: deepUpdateItems key val rest

end

/-- The `for key, value in kwargs.items(): self.deep_update(...)` loop of
`customize_response`, applied in the caller-given order. -/
def applyOverrides (ov : List (String × Json)) (j : Json) : Json :=
  ov.foldl (fun r kv => deepUpdate kv.1 kv.2 r) j

/-- `MockResponseGenerator.customize_response` as a value transformer:
timestamp rewrite with the current UTC ISO string `ts`, then request-id
rewrite drawing from `f`, then the overrides. -/
def customizeResponse (ts : String) (f : ℕ → ℕ) (ov : List (String × Json)) (j : Json) : Json :=
  applyOverrides ov (updateRequestId f (updateTimestamps ts j) 0).1

/-- `MockResponseGenerator.generate_error_response`: the synthesized error
envelope.  `n` is the draw of `random.randint(100000, 999999)` used for the
`req_error_<n>` id; `ts` the current UTC ISO timestamp. -/
def generateErrorResponse (statusCode : ℕ) (errorCode message ts : String) (n : ℕ) : Json :=
  .obj [("error", .obj [("code", .str errorCode), ("message", .str message),
                        ("status_code", .num (statusCode : ℚ))]),
        ("meta", .obj [("request_id", .str ("req_error_" ++ toString n)),
                       ("timestamp", .str ts), ("api_version", .str "v1")])]

/-- The fixture store `MockResponseGenerator.responses`: provider name to
scenario name to stored document, as an association list (Python dicts with
string keys). -/
abbrev Store := List (String × List (String × Json))

/-- `MockResponseGenerator.get_response` without keyword overrides (the only
form the request pipeline uses): fixture lookup, synthesizing a 404 error
envelope on a provider or scenario miss, customization on a hit. -/
def getResponse (store : Store) (provider scenario : String) (ts : String) (f : ℕ → ℕ) : Json :=
  match store.lookup provider with
  | none =>
    generateErrorResponse 404 "provider_not_found"
      ("Provider \x27" ++ provider ++ "\x27 not supported") ts (f 0)
  | some scs =>
    match scs.lookup scenario with
    | none =>
      generateErrorResponse 404 "scenario_not_found"
        ("Scenario \x27" ++ scenario ++ "\x27 not found for provider \x27" ++ provider ++ "\x27")
        ts (f 0)
    | some doc => customizeResponse ts f [] doc

/-- The per-client request log `RateLimiter.requests`, a dict from client
address to the list of recorded request times, defaulting to `[]` for
clients not seen yet (`if client_ip not in self.requests: ... = []`). -/
abbrev ClientMap := String → List ℚ

/-- The pruning step of `RateLimiter.is_rate_limited`:
`[t for t in self.requests[ip] if t > now - window]`. -/
def pruneRequests (window now : ℚ) (ts : List ℚ) : List ℚ :=
  ts.filter (fun t => decide (now - window < t))

/-- The body of `RateLimiter.is_rate_limited` acting on one client's request
list: prune, then either reject (leaving the pruned list, recording
nothing) or append `now` and admit.  The returned Bool is the source's
return value: `true` means rate limited / rejected. -/
def admitStep (limit : ℕ) (window : ℚ) (st : List ℚ) (now : ℚ) : Bool × List ℚ :=
  let pruned := pruneRequests window now st
  if limit ≤ pruned.length then (true, pruned) else (false, pruned ++ [now])

/-- `RateLimiter.is_rate_limited` on the whole client map: only the calling
client's entry is touched. -/
def isRateLimitedStep (limit : ℕ) (window : ℚ) (st : ClientMap) (client : String) (now : ℚ) :
    Bool × ClientMap :=
  let r := admitStep limit window (st client) now
  (r.1, fun c => if c = client then r.2 else st c)

/-- The triple returned by `RateLimiter.get_rate_limit_info`.  `remaining`
is a Python int (`max(0, limit - count)`); `reset` is
`int(time.time() + window)`. -/
structure RateInfo where
  limit : ℕ
  remaining : ℤ
  reset : ℤ
deriving Repr, DecidableEq

/-- `RateLimiter.get_rate_limit_info`.  Note that the source takes
`len(self.requests.get(client_ip, []))` without pruning: entries older than
the window are still counted here. -/
def getRateLimitInfo (limit : ℕ) (window : ℚ) (st : ClientMap) (client : String) (now : ℚ) :
    RateInfo :=
  { limit := limit
    remaining := max 0 ((limit : ℤ) - (st client).length)
    reset := ⌊now + window⌋ }

/-- The configuration fields of `MockAPIConfig` that the request pipeline
reads (delays are not observable in the embedding). -/
structure MockConfig where
  failureRate : ℚ
  rateLimitRequests : ℕ
  rateLimitWindow : ℚ

/-- Successive processing of a list of request times for one client through
`is_rate_limited`, used to state the sliding-window admission properties:
returns the list of per-request decisions (`true` = rejected) and the final
request log. -/
def runAdmit (limit : ℕ) (window : ℚ) : List ℚ → List ℚ → List Bool × List ℚ
  | [], st => ([], st)
  | t :: rest, st =>
    let r := admitStep limit window st t
    let rr := runAdmit limit window rest r.2
    (r.1 :: rr.1, rr.2)

mutual

/-- A plain serialization of a document, standing in for
`json.dumps(data, indent=2)`.  Only the existence and consistency of the
`Content-Length` header derived from it is ever claimed; the exact Python
rendering (indentation, escapes) is not reproduced. -/
def Json.render : Json → String
  | .null => "null"
  | .bool b => if b then "true" else "false"
  | .num q => toString q
  | .str s => "\x22" ++ s ++ "\x22"
  | .arr xs => "[" ++ Json.renderItems xs ++ "]"
  | .obj fs => "\x7b" ++ Json.renderFields fs ++ "\x7d"

def Json.renderItems : List Json → String
  | [] => ""
  | [x] => Json.render x
  | x :: rest => Json.render x ++ ", " ++ Json.renderItems rest

def Json.renderFields : List (String × Json) → String
  | [] => ""
  | [(k, v)] => "\x22" ++ k ++ "\x22: " ++ Json.render v
  | (k, v) :: rest => "\x22" ++ k ++ "\x22: " ++ Json.render v ++ ", " ++ Json.renderFields rest

end

/-- An emitted HTTP response: status line, headers in the order the source
sends them, decoded JSON body. -/
structure HttpResponse where
  status : ℕ
  headers : List (String × String)
  body : Json
deriving Repr, DecidableEq

/-- `MockAPIHandler.send_json_response`: every response is emitted through
this single path, with the content, rate-limit and CORS headers.  `st` is
the rate-limiter state at emission time and `now` the wall clock read for
the reset header. -/
def sendJsonResponse (limit : ℕ) (window : ℚ) (st : ClientMap) (client : String) (now : ℚ)
    (statusCode : ℕ) (data : Json) : HttpResponse :=
  let rate := getRateLimitInfo limit window st client now
  { status := statusCode
    headers :=
      [("Content-Type", "application/json"),
       ("Content-Length", toString (Json.render data).length),
       ("X-RateLimit-Limit", toString rate.limit),
       ("X-RateLimit-Remaining", toString rate.remaining),
       ("X-RateLimit-Reset", toString rate.reset),
       ("Access-Control-Allow-Origin", "*"),
       ("Access-Control-Allow-Methods", "GET, POST, PUT, DELETE, OPTIONS"),
       ("Access-Control-Allow-Headers", "Content-Type, Authorization")]
    body := data }

/-- The `scenario_map` dict of `MockAPIHandler.route_request`. -/
def scenarioMapTable : List (String × String) :=
  [("servers", "success-create-server"),
   ("instances", "success-create-server"),
   ("droplets", "success-create-server"),
   ("create-server", "success-create-server"),
   ("list-servers", "success-list-servers"),
   ("server-status", "success-server-status")]

/-- Scenario selection in `route_request`:
`scenario_map.get(action, 'success-create-server')`, overridden by the
first value of the `scenario` query parameter when present.  `parse_qs`
never produces an empty value list, so the `some []` case (where the
source would raise) is mapped to the table default. -/
def resolveScenario (action : String) (query : List (String × List String)) : String :=
  match query.lookup "scenario" with
  | some (v :: _) => v
  | _ => (scenarioMapTable.lookup action).getD "success-create-server"

/-- `MockAPIHandler.handle_test_scenarios`: the discovery payload. -/
def handleTestScenarios (store : Store) (provider : String) : Json :=
  .obj [("provider", .str provider),
        ("available_scenarios", .arr (((store.lookup provider).getD []).map (fun p => Json.str p.1))),
        ("usage", .str "Add ?scenario=<scenario_name> to test specific scenarios"),
        ("examples", .arr
          [.str ("/" ++ provider ++ "/servers?scenario=rate-limit-exceeded"),
           .str ("/" ++ provider ++ "/servers?scenario=quota-exceeded"),
           .str ("/" ++ provider ++ "/servers?scenario=auth-failed")])]

/-- `MockAPIHandler.route_request`: discovery for the literal action
`test-scenarios`, otherwise fixture lookup under the resolved scenario.
The `method` argument is taken and ignored exactly as in the source. -/
def routeRequest (store : Store) (provider action method : String)
    (query : List (String × List String)) (ts : String) (f : ℕ → ℕ) : Json :=
  if action == "test-scenarios" then handleTestScenarios store provider
  else getResponse store provider (resolveScenario action query) ts f

/-- The `failures` table of `MockAPIHandler.send_random_failure_response`. -/
def failureTable : List (ℕ × String × String) :=
  [(500, "internal_server_error", "Internal server error occurred"),
   (503, "service_unavailable", "Service temporarily unavailable"),
   (502, "bad_gateway", "Bad gateway error"),
   (504, "gateway_timeout", "Gateway timeout")]

/-- `MockAPIHandler.handle_request`, the per-request pipeline: rate-limit
check (429 short-circuit), random failure injection, then routing.

Oracles: `now` is the `time.time()` read inside `is_rate_limited`;
`nowHdr` the read for the reset header; `ts` the `datetime.utcnow()` ISO
string; `f` the stream of `randint` draws; `failDraw` the `random.random()`
value compared against the failure rate; `failIdx` the uniform choice among
the four canned failures; `exc` models the `try/except` boundary around
routing — `some msg` stands for an exception with message `msg` raised
while routing, `none` for a normal run.  The artificial delay before the
rate-limit check has no observable effect here.  Returns the response and
the rate-limiter state after the call. -/
def handleRequest (cfg : MockConfig) (store : Store) (st0 : ClientMap) (client method : String)
    (pathParts : List String) (query : List (String × List String)) (now nowHdr : ℚ)
    (ts : String) (f : ℕ → ℕ) (failDraw : ℚ) (failIdx : Fin 4) (exc : Option String) :
    HttpResponse × ClientMap :=
  let rl := isRateLimitedStep cfg.rateLimitRequests cfg.rateLimitWindow st0 client now
  let st := rl.2
  let send := sendJsonResponse cfg.rateLimitRequests cfg.rateLimitWindow st client nowHdr
  if rl.1 then
    (send 429 (getResponse store "hetzner" "rate-limit-exceeded" ts f), st)
  else if failDraw < cfg.failureRate then
    let fl := failureTable.get ⟨failIdx.1, by simp [failureTable]⟩
    (send fl.1 (generateErrorResponse fl.1 fl.2.1 fl.2.2 ts (f 0)), st)
  else
    match exc with
    | some msg =>
      (send 500 (Json.obj [("error", .str "Internal server error"), ("message", .str msg)]), st)
    | none =>
      match pathParts with
      | provider :: action :: _ =>
        (send 200 (routeRequest store provider action method query ts f), st)
      | _ =>
        (send 404 (Json.obj [("error", .str "Invalid API endpoint"),
                             ("message", .str "Expected format: /\x7bprovider\x7d/\x7baction\x7d")]), st)

/-- The window count as claim C3 words it: only the client's recorded
timestamps within the trailing window of the current instant are counted.
(The source's `get_rate_limit_info` does not prune, so it can differ.) -/
def claimWindowRemaining (limit : ℕ) (window : ℚ) (st : ClientMap) (client : String)
    (now : ℚ) : ℤ :=
  max 0 ((limit : ℤ) - (pruneRequests window now (st client)).length)

/-- A rate-limiter state holding one stale timestamp for one client. -/
def c3State : ClientMap := fun c => if c = "203.0.113.7" then [0] else []

/-- Override application as seen by a *shared* (aliased) top-level value of
the stored template during the `deep_update` loop: each override whose key
differs from the field's own key `k` reaches the shared object through the
recursion over `copy.values()`; the first override whose key equals `k`
rebinds the copy's top-level slot before recursing, breaking the alias, so
neither it nor any later override touches the template's object again. -/
def applyOverridesUntil (k : String) : List (String × Json) → Json → Json
  | [], v => v
  | (key, val) :: rest, v =>
    if key == k then v else applyOverridesUntil k rest (deepUpdate key val v)

/-- The per-field effect of a `get_response` customization on the *stored*
template, with the `update_request_id` draw counter threaded in document
order.  `get_response` customizes `self.responses[provider][scenario].copy()`
— a *shallow* copy, whose top-level slots alias the template's value
objects — so:
* a truthy timestamp-family field is rebound in the copy (to the timestamp
  string) before anything recurses into it: the template keeps the original
  value, and the copy's string consumes no draws;
* a non-container value is immutable, so the template keeps it; if the key
  is `request_id` the copy's rebind consumes one draw;
* a still-aliased container is mutated in place by the timestamp pass; if
  the key is `request_id` the request-id pass then rebinds the copy's slot
  (one draw, no recursion into the old value), freezing the template's
  object with only the timestamp pass applied; otherwise the request-id
  pass recurses into the shared object and the overrides reach it as in
  `applyOverridesUntil`. -/
def storedTemplateAfterFields (ts : String) (f : ℕ → ℕ) (ov : List (String × Json)) :
    List (String × Json) → ℕ → List (String × Json)
  | [], _ => []
  | (k, v) :: rest, n =>
    if tsKey k && v.truthy then
      (k, v) :: storedTemplateAfterFields ts f ov rest n
    else if !v.isContainer then
      (k, v) :: storedTemplateAfterFields ts f ov rest (if k == "request_id" then n + 1 else n)
    else if k == "request_id" then
      (k, updateTimestamps ts v) :: storedTemplateAfterFields ts f ov rest (n + 1)
    else
      let rv := updateRequestId f (updateTimestamps ts v) n
      (k, applyOverridesUntil k ov rv.1) :: storedTemplateAfterFields ts f ov rest rv.2

/-- The value the stored fixture template holds after `get_response`
customizes its shallow `.copy()` (cf. `storedTemplateAfterFields`).  For a
top-level JSON array, `list.copy()` shares every element and the passes
never rebind list slots, so the template sees every rewrite; scalars cannot
be shallow-copied by the source (`.copy()` raises, handled by the catch-all)
and are left as they are. -/
def storedTemplateAfterCustomize (ts : String) (f : ℕ → ℕ) (ov : List (String × Json)) :
    Json → Json
  | .obj fs => .obj (storedTemplateAfterFields ts f ov fs 0)
  | .arr xs => customizeResponse ts f ov (.arr xs)
  | j => j

/-- A stored fixture with its volatile data nested one level down, as the
real fixtures keep it. -/
def c1Template : Json :=
  .obj [("server", .obj [("id", .num 42),
                         ("created", .str "2024-01-01T00:00:00+00:00"),
                         ("server_type", .str "cx11")])]

/-- The scenario resolution exactly as claim C5 words it: the first value of
the `scenario` query parameter when present, otherwise the fixed action
table, defaulting to `success-create-server`. -/
def claimScenario (action : String) (query : List (String × List String)) : String :=
  match query.lookup "scenario" with
  | some (v :: _) => v
  | _ =>
    if action = "servers" ∨ action = "instances" ∨ action = "droplets"
        ∨ action = "create-server" then "success-create-server"
    else if action = "list-servers" then "success-list-servers"
    else if action = "server-status" then "success-server-status"
    else "success-create-server"

/-- The value condition as claim C7 words it: a non-empty, non-null value.
Numbers and booleans carry no emptiness, so `0` and `false` qualify —
unlike under Python truthiness. -/
def nonEmptyNonNull : Json → Bool
  | .null => false
  | .str s => s != ""
  | .arr xs => !xs.isEmpty
  | .obj fs => !fs.isEmpty
  | _ => true

mutual

/-- The customization rewrite as claim C7 describes it: one recursion
through every nested object and array that overwrites each `request_id`
field with a freshly drawn `req_<n>` identifier and each timestamp-family
field whose value satisfies `cond` with the timestamp string `ts`.
Instantiated at `cond := Json.truthy` it is the amended claim, at
`cond := nonEmptyNonNull` the claim as frozen. -/
def specRewrite (cond : Json → Bool) (ts : String) (f : ℕ → ℕ) : Json → ℕ → Json × ℕ
  | .obj fs, n =>
    let r := specRewriteFields cond ts f fs n
    (.obj r.1, r.2)
  | .arr xs, n =>
    let r := specRewriteItems cond ts f xs n
    (.arr r.1, r.2)
  | j, n => (j, n)

def specRewriteFields (cond : Json → Bool) (ts : String) (f : ℕ → ℕ) :
    List (String × Json) → ℕ → List (String × Json) × ℕ
  | [], n => ([], n)
  | (k, v) :: rest, n =>
    if k == "request_id" then
      let r := specRewriteFields cond ts f rest (n + 1)
      ((k, Json.str ("req_" ++ toString (f n))) :: r.1, r.2)
    else if tsKey k && cond v then
      let r := specRewriteFields cond ts f rest n
      ((k, Json.str ts) :: r.1, r.2)
    else if v.isContainer then
      let rv := specRewrite cond ts f v n
      let r := specRewriteFields cond ts f rest rv.2
      ((k, rv.1) :: r.1, r.2)
    else
      let r := specRewriteFields cond ts f rest n
      ((k, v) :: r.1, r.2)

def specRewriteItems (cond : Json → Bool) (ts : String) (f : ℕ → ℕ) :
    List Json → ℕ → List Json × ℕ
  | [], n => ([], n)
  | x :: rest, n =>
    let rx := specRewrite cond ts f x n
    let r := specRewriteItems cond ts f rest rx.2
    (rx.1 :: r.1, r.2)

end

/-- The whole-document form of `specRewrite`, starting the draw counter at
zero like `customize_response` does. -/
def specCustomize (cond : Json → Bool) (ts : String) (f : ℕ → ℕ) (j : Json) : Json :=
  (specRewrite cond ts f j 0).1

/-- The sample document claim C7 fails on: a timestamp field holding the
number `0`, which is non-empty and non-null but falsy in Python. -/
def c7Document : Json := .obj [("timestamp", .num 0), ("request_id", .str "old")]

mutual

/-- All values sitting under an object field named `key`, anywhere in the
document, in traversal order. -/
def valuesOfKey (key : String) : Json → List Json
  | .obj fs => valuesOfKeyFields key fs
  | .arr xs => valuesOfKeyItems key xs
  | _ => []

def valuesOfKeyFields (key : String) : List (String × Json) → List Json
  | [] => []
  | (k, v) :: rest =>
    (if k == key then [v] else []) ++ valuesOfKey key v ++ valuesOfKeyFields key rest

def valuesOfKeyItems (key : String) : List Json → List Json
  | [] => []
  | x :: rest => valuesOfKey key x ++ valuesOfKeyItems key rest

end

/-- C3, counterexample: with one recorded timestamp at time 0, a one-hour
window and the clock at 7200 s, the entry lies outside the trailing window,
yet `get_rate_limit_info` still counts it: the source reports 99 remaining
where the claim's pruned count demands 100. -/
theorem getRateLimitInfo_counts_stale_entries :
    (getRateLimitInfo 100 3600 c3State "203.0.113.7" 7200).remaining
      ≠ claimWindowRemaining 100 3600 c3State "203.0.113.7" 7200 := by
  have hstale : ¬ ((7200 : ℚ) - 3600 < 0) := by norm_num
  simp [getRateLimitInfo, claimWindowRemaining, c3State, pruneRequests, List.filter_cons, hstale]

/-- C3 (amended): the reported remaining quota equals
`max(0, limit - n)` where `n` counts all timestamps currently recorded for
the client — including entries older than the window, since the status
report never prunes — and is therefore always non-negative. -/
theorem getRateLimitInfo_remaining_spec (limit : ℕ) (window : ℚ) (st : ClientMap)
    (client : String) (now : ℚ) :
    (getRateLimitInfo limit window st client now).remaining
        = max 0 ((limit : ℤ) - (st client).length)
      ∧ 0 ≤ (getRateLimitInfo limit window st client now).remaining :=
  ⟨rfl, le_max_left 0 _⟩

/-- Filtering by a strict lower bound `b` subsumes a previous filtering by a
lower bound `a ≤ b`. -/
theorem filter_lt_subsume {a b : ℚ} (h : a ≤ b) (xs : List ℚ) :
    (xs.filter (fun s => decide (a < s))).filter (fun s => decide (b < s))
      = xs.filter (fun s => decide (b < s)) := by
  induction xs with
  | nil => rfl
  | cons x xs ih =>
    by_cases h1 : a < x
    · by_cases h2 : b < x
      · simp [List.filter_cons, h1, h2, ih]
      · simp [List.filter_cons, h1, h2, ih]
    · have h2 : ¬ b < x := fun hb => h1 (lt_of_le_of_lt h hb)
      simp [List.filter_cons, h1, h2, ih]

/-- A value failing the filter predicate can be erased without changing the
filtered list. -/
theorem filter_eq_filter_erase {p : ℚ → Bool} {t0 : ℚ} (hp : p t0 = false) :
    ∀ l : List ℚ, l.filter p = (l.erase t0).filter p := by
  intro l
  induction l with
  | nil => rfl
  | cons x xs ih =>
    by_cases hx : x = t0
    · subst hx
      simp [List.erase_cons_head, List.filter_cons, hp]
    · rw [List.erase_cons_tail (by simpa using hx)]
      simp [List.filter_cons, ih]

/-- C8: a recorded timestamp `t0` that has aged past the window no longer
counts: the admit call at `now` behaves exactly as if `t0` had been deleted
from the client's log, and `t0` is gone from the state the call leaves
behind, so it affects no subsequent window count either. -/
theorem admit_forgets_aged_entries (limit : ℕ) (window : ℚ) (hW : 0 < window)
    (st : ClientMap) (client : String) (now t0 : ℚ)
    (ht : t0 ≤ now - window) (hmem : t0 ∈ st client) :
    admitStep limit window (st client) now = admitStep limit window ((st client).erase t0) now
    ∧ t0 ∉ (isRateLimitedStep limit window st client now).2 client := by
  have hp : (fun t => decide (now - window < t)) t0 = false := by
    simp only [decide_eq_false_iff_not]
    exact fun hlt => absurd ht (not_le.mpr hlt)
  have hprune : pruneRequests window now (st client)
      = pruneRequests window now ((st client).erase t0) :=
    filter_eq_filter_erase hp (st client)
  constructor
  · unfold admitStep
    rw [hprune]
  · have hnotpruned : t0 ∉ pruneRequests window now (st client) := by
      intro hmem2
      have := List.of_mem_filter hmem2
      simp only [decide_eq_true_eq] at this
      exact absurd ht (not_le.mpr this)
    have hne : t0 ≠ now := by
      intro h
      subst h
      linarith
    show t0 ∉ (if client = client then (admitStep limit window (st client) now).2 else st client)
    rw [if_pos rfl]
    unfold admitStep
    by_cases hfull : limit ≤ (pruneRequests window now (st client)).length
    · simpa [hfull] using hnotpruned
    · simp only [hfull, if_false, List.mem_append, List.mem_singleton]
      rintro (h | h)
      · exact hnotpruned h
      · exact hne h

/-- C8, witness: at `limit = 100`, `window = 3600`, a client log
`[0, 5000]` and clock 5000, the entry at time 0 has aged out. -/
theorem admit_forgets_aged_entries_witness :
    (0 : ℚ) < 3600 ∧ (0 : ℚ) ≤ 5000 - 3600 ∧ (0 : ℚ) ∈ [(0 : ℚ), 5000]
    ∧ (admitStep 100 3600 [(0 : ℚ), 5000] 5000
        = admitStep 100 3600 ([(0 : ℚ), 5000].erase 0) 5000
      ∧ (0 : ℚ) ∉ (isRateLimitedStep 100 3600 (fun _ => [(0 : ℚ), 5000]) "c" 5000).2 "c") :=
  ⟨by norm_num, by norm_num, by norm_num,
    admit_forgets_aged_entries 100 3600 (by norm_num) (fun _ => [(0 : ℚ), 5000]) "c" 5000 0
      (by norm_num) (by norm_num)⟩

/-- Invariant lemma for C4: processing a sorted batch of request times whose
prefix-anchored window counts never exceed the limit admits every request,
and the final request log filters like the full list of times.  `p` is the
(already admitted) processed prefix and `st` the current log, which must
filter like `p` for any cutoff at or beyond `p`. -/
theorem runAdmit_window_aux (limit : ℕ) (window : ℚ) (hW : 0 < window) :
    ∀ (rest p st : List ℚ),
      (p ++ rest).Sorted (· ≤ ·) →
      (∀ i : Fin rest.length,
        ((p ++ rest.take (i.1 + 1)).filter
            (fun s => decide (rest.get i - window < s))).length ≤ limit) →
      (∀ b : ℚ, (∀ y ∈ p, y ≤ b) →
        st.filter (fun s => decide (b - window < s))
          = p.filter (fun s => decide (b - window < s))) →
      (runAdmit limit window rest st).1 = List.replicate rest.length false
      ∧ (∀ b : ℚ, (∀ y ∈ p ++ rest, y ≤ b) →
          (runAdmit limit window rest st).2.filter (fun s => decide (b - window < s))
            = (p ++ rest).filter (fun s => decide (b - window < s))) := by
  intro rest
  induction rest with
  | nil =>
    intro p st hsort hc hst
    refine ⟨rfl, ?_⟩
    intro b hb
    simp only [runAdmit, List.append_nil] at *
    exact hst b hb
  | cons t rest ih =>
    intro p st hsort hc hst
    have happ : (p ++ [t]) ++ rest = p ++ t :: rest := by simp
    have hpt : ∀ y ∈ p, y ≤ t := by
      have hs := (List.pairwise_append.mp hsort).2.2
      exact fun y hy => hs y hy t (by simp)
    have hpruned : pruneRequests window t st = p.filter (fun s => decide (t - window < s)) :=
      hst t hpt
    have h0 : ((p ++ [t]).filter (fun s => decide (t - window < s))).length ≤ limit :=
      hc ⟨0, by simp⟩
    have htt : t - window < t := by linarith
    have hfilt_app : (p ++ [t]).filter (fun s => decide (t - window < s))
        = p.filter (fun s => decide (t - window < s)) ++ [t] := by
      rw [List.filter_append]
      simp [htt]
    have hlen : (p.filter (fun s => decide (t - window < s))).length + 1 ≤ limit := by
      rw [hfilt_app] at h0
      simpa using h0
    have hadmit : admitStep limit window st t
        = (false, p.filter (fun s => decide (t - window < s)) ++ [t]) := by
      unfold admitStep
      rw [hpruned, if_neg (by omega)]
    have hsort' : ((p ++ [t]) ++ rest).Sorted (· ≤ ·) := by
      rw [happ]; exact hsort
    have hc' : ∀ i : Fin rest.length,
        (((p ++ [t]) ++ rest.take (i.1 + 1)).filter
            (fun s => decide (rest.get i - window < s))).length ≤ limit := by
      intro i
      have hbound : i.1 + 1 < (t :: rest).length := by
        simp only [List.length_cons]
        omega
      have h := hc ⟨i.1 + 1, hbound⟩
      have hget : (t :: rest).get ⟨i.1 + 1, hbound⟩ = rest.get i := rfl
      rw [hget] at h
      calc (((p ++ [t]) ++ rest.take (i.1 + 1)).filter
              (fun s => decide (rest.get i - window < s))).length
          = ((p ++ t :: rest.take (i.1 + 1)).filter
              (fun s => decide (rest.get i - window < s))).length := by
            rw [List.append_assoc]
            rfl
        _ ≤ limit := h
    have hst' : ∀ b : ℚ, (∀ y ∈ p ++ [t], y ≤ b) →
        (p.filter (fun s => decide (t - window < s)) ++ [t]).filter
              (fun s => decide (b - window < s))
          = (p ++ [t]).filter (fun s => decide (b - window < s)) := by
      intro b hb
      have htb : t ≤ b := hb t (by simp)
      rw [List.filter_append, List.filter_append]
      congr 1
      exact filter_lt_subsume (by linarith) p
    obtain ⟨ihA, ihB⟩ := ih (p ++ [t])
      (p.filter (fun s => decide (t - window < s)) ++ [t]) hsort' hc' hst'
    constructor
    · show (runAdmit limit window (t :: rest) st).1 = _
      simp only [runAdmit, hadmit, List.replicate]
      rw [ihA]
    · intro b hb
      have hb' : ∀ y ∈ (p ++ [t]) ++ rest, y ≤ b := by
        rw [happ]; exact hb
      have h := ihB b hb'
      simp only [runAdmit, hadmit] at *
      rw [h, happ]

/-- C4: `is_rate_limited` first prunes the client's timestamps older than
`now - window`, then rejects without recording when the pruned count has
reached the limit, and otherwise appends `now` and admits (last conjunct,
and the per-client framing in the third conjunct, which also shows other
clients' logs are untouched).  Consequently a client whose request times
`ts` never exceed `limit` within any trailing window anchored at a request
is admitted every time (first conjunct), while a further request `x` whose
trailing window already holds `limit` admitted requests is rejected
(second conjunct). -/
theorem rate_limiter_sliding_admission (limit : ℕ) (window : ℚ) (hW : 0 < window)
    (ts : List ℚ) (hsort : ts.Sorted (· ≤ ·))
    (hcount : ∀ i : Fin ts.length,
      ((ts.take (i.1 + 1)).filter (fun s => decide (ts.get i - window < s))).length ≤ limit) :
    (runAdmit limit window ts []).1 = List.replicate ts.length false
    ∧ (∀ x : ℚ, (∀ y ∈ ts, y ≤ x) →
        limit ≤ (ts.filter (fun s => decide (x - window < s))).length →
        (admitStep limit window (runAdmit limit window ts []).2 x).1 = true)
    ∧ (∀ (st : ClientMap) (client : String) (now : ℚ),
        isRateLimitedStep limit window st client now
          = ((admitStep limit window (st client) now).1,
             fun c => if c = client then (admitStep limit window (st client) now).2 else st c))
    ∧ (∀ (st : List ℚ) (now : ℚ),
        admitStep limit window st now
          = if limit ≤ (pruneRequests window now st).length
            then (true, pruneRequests window now st)
            else (false, pruneRequests window now st ++ [now])) := by
  obtain ⟨hA, hB⟩ := runAdmit_window_aux limit window hW ts [] []
    (by simpa using hsort)
    (by intro i; simpa using hcount i)
    (by intro b _; rfl)
  refine ⟨hA, ?_, ?_, ?_⟩
  · intro x hx hcnt
    have hfin : (runAdmit limit window ts []).2.filter (fun s => decide (x - window < s))
        = ts.filter (fun s => decide (x - window < s)) := by
      have := hB x (by simpa using hx)
      simpa using this
    unfold admitStep
    have : pruneRequests window x (runAdmit limit window ts []).2
        = ts.filter (fun s => decide (x - window < s)) := hfin
    rw [this, if_pos hcnt]
  · intro st client now
    rfl
  · intro st now
    rfl

/-- C4, witness: limit 2 and window 10 over request times 100 and 101, both
admitted; a third request at time 101 with both prior requests inside its
trailing window is rejected. -/
theorem rate_limiter_sliding_admission_witness :
    (0 : ℚ) < 10
    ∧ ([(100 : ℚ), 101]).Sorted (· ≤ ·)
    ∧ (∀ i : Fin ([(100 : ℚ), 101]).length,
        (([(100 : ℚ), 101].take (i.1 + 1)).filter
            (fun s => decide ([(100 : ℚ), 101].get i - 10 < s))).length ≤ 2)
    ∧ ((runAdmit 2 10 [(100 : ℚ), 101] []).1 = List.replicate 2 false
       ∧ (∀ x : ℚ, (∀ y ∈ [(100 : ℚ), 101], y ≤ x) →
           2 ≤ ([(100 : ℚ), 101].filter (fun s => decide (x - 10 < s))).length →
           (admitStep 2 10 (runAdmit 2 10 [(100 : ℚ), 101] []).2 x).1 = true)
       ∧ (∀ (st : ClientMap) (client : String) (now : ℚ),
           isRateLimitedStep 2 10 st client now
             = ((admitStep 2 10 (st client) now).1,
                fun c => if c = client then (admitStep 2 10 (st client) now).2 else st c))
       ∧ (∀ (st : List ℚ) (now : ℚ),
           admitStep 2 10 st now
             = if 2 ≤ (pruneRequests 10 now st).length
               then (true, pruneRequests 10 now st)
               else (false, pruneRequests 10 now st ++ [now]))) :=
  ⟨by norm_num, by decide,
   by
     intro i
     fin_cases i <;> norm_num [List.filter_cons],
   rate_limiter_sliding_admission 2 10 (by norm_num) [(100 : ℚ), 101] (by decide)
     (by intro i; fin_cases i <;> norm_num [List.filter_cons])⟩

/-- The timestamp pass preserves container-ness at the root. -/
theorem isContainer_updateTimestamps (ts : String) (v : Json) :
    (updateTimestamps ts v).isContainer = v.isContainer := by
  cases v <;> rfl

/-- The source's two rewrite passes (timestamps, then request ids) coincide,
draw for draw, with the single recursion described by the spec,
instantiated at Python truthiness. -/
theorem customize_passes_eq_specRewrite (ts : String) (f : ℕ → ℕ) :
    ∀ (j : Json) (n : ℕ),
      updateRequestId f (updateTimestamps ts j) n = specRewrite Json.truthy ts f j n := by
  apply specRewrite.induct Json.truthy ts f
    (motive_1 := fun j n =>
      updateRequestId f (updateTimestamps ts j) n = specRewrite Json.truthy ts f j n)
    (motive_2 := fun xs n =>
      updateRequestIdItems f (updateTimestampsItems ts xs) n
        = specRewriteItems Json.truthy ts f xs n)
    (motive_3 := fun fs n =>
      updateRequestIdFields f (updateTimestampsFields ts fs) n
        = specRewriteFields Json.truthy ts f fs n)
  · intro fs n ih
    simp only [updateTimestamps, updateRequestId, specRewrite, ih]
  · intro xs n ih
    simp only [updateTimestamps, updateRequestId, specRewrite, ih]
  · intro j n h1 h2
    cases j <;>
      first
        | exact (h1 _ rfl).elim
        | exact (h2 _ rfl).elim
        | rfl
  · intro n
    rfl
  · intro x rest n rx ih1 ih2
    simp only [updateTimestampsItems, updateRequestIdItems, specRewriteItems, ih1, ih2]
  · intro n
    rfl
  · intro k v rest n hk ih
    rw [beq_iff_eq] at hk
    subst hk
    have htk : tsKey "request_id" = false := rfl
    have hreq : ∀ (w : Json) (fs : List (String × Json)) (m : ℕ),
        updateRequestIdFields f (("request_id", w) :: fs) m
          = (("request_id", Json.str ("req_" ++ toString (f m)))
                :: (updateRequestIdFields f fs (m + 1)).1,
             (updateRequestIdFields f fs (m + 1)).2) := by
      intro w fs m
      simp [updateRequestIdFields]
    have h1 : updateTimestampsFields ts (("request_id", v) :: rest)
        = ("request_id", if v.isContainer = true then updateTimestamps ts v else v)
            :: updateTimestampsFields ts rest := by
      simp only [updateTimestampsFields, htk, Bool.false_and, Bool.false_eq_true, if_false]
      split <;> rfl
    rw [h1, hreq, ih]
    simp [specRewriteFields]
  · intro k v rest n hk ht ih
    have h1 : updateTimestampsFields ts ((k, v) :: rest)
        = (k, Json.str ts) :: updateTimestampsFields ts rest := by
      simp only [updateTimestampsFields]
      rw [if_pos ht]
    have h2 : updateRequestIdFields f ((k, Json.str ts) :: updateTimestampsFields ts rest) n
        = ((k, Json.str ts) :: (updateRequestIdFields f (updateTimestampsFields ts rest) n).1,
           (updateRequestIdFields f (updateTimestampsFields ts rest) n).2) := by
      simp only [updateRequestIdFields]
      rw [if_neg hk, if_neg (by simp [Json.isContainer])]
    have h3 : specRewriteFields Json.truthy ts f ((k, v) :: rest) n
        = ((k, Json.str ts) :: (specRewriteFields Json.truthy ts f rest n).1,
           (specRewriteFields Json.truthy ts f rest n).2) := by
      simp only [specRewriteFields]
      rw [if_neg hk, if_pos ht]
    rw [h1, h2, ih, h3]
  · intro k v rest n hk ht hv rv ih1 ih2
    have hrv : rv = specRewrite Json.truthy ts f v n := rfl
    rw [hrv] at ih2
    have hc : (updateTimestamps ts v).isContainer = true := by
      rw [isContainer_updateTimestamps]
      exact hv
    have h1 : updateTimestampsFields ts ((k, v) :: rest)
        = (k, updateTimestamps ts v) :: updateTimestampsFields ts rest := by
      simp only [updateTimestampsFields]
      rw [if_neg ht, if_pos hv]
    have h2 : updateRequestIdFields f
          ((k, updateTimestamps ts v) :: updateTimestampsFields ts rest) n
        = ((k, (updateRequestId f (updateTimestamps ts v) n).1)
              :: (updateRequestIdFields f (updateTimestampsFields ts rest)
                    (updateRequestId f (updateTimestamps ts v) n).2).1,
           (updateRequestIdFields f (updateTimestampsFields ts rest)
              (updateRequestId f (updateTimestamps ts v) n).2).2) := by
      simp only [updateRequestIdFields]
      rw [if_neg hk, if_pos hc]
    have h3 : specRewriteFields Json.truthy ts f ((k, v) :: rest) n
        = ((k, (specRewrite Json.truthy ts f v n).1)
              :: (specRewriteFields Json.truthy ts f rest
                    (specRewrite Json.truthy ts f v n).2).1,
           (specRewriteFields Json.truthy ts f rest
              (specRewrite Json.truthy ts f v n).2).2) := by
      simp only [specRewriteFields]
      rw [if_neg hk, if_neg ht, if_pos hv]
    rw [h1, h2, ih1, ih2, h3]
  · intro k v rest n hk ht hv ih
    have h1 : updateTimestampsFields ts ((k, v) :: rest)
        = (k, v) :: updateTimestampsFields ts rest := by
      simp only [updateTimestampsFields]
      rw [if_neg ht, if_neg hv]
    have h2 : updateRequestIdFields f ((k, v) :: updateTimestampsFields ts rest) n
        = ((k, v) :: (updateRequestIdFields f (updateTimestampsFields ts rest) n).1,
           (updateRequestIdFields f (updateTimestampsFields ts rest) n).2) := by
      simp only [updateRequestIdFields]
      rw [if_neg hk, if_neg hv]
    have h3 : specRewriteFields Json.truthy ts f ((k, v) :: rest) n
        = ((k, v) :: (specRewriteFields Json.truthy ts f rest n).1,
           (specRewriteFields Json.truthy ts f rest n).2) := by
      simp only [specRewriteFields]
      rw [if_neg hk, if_neg ht, if_neg hv]
    rw [h1, h2, ih, h3]

/-- Every value under a `request_id` key in the output of the rewrite is one
of the freshly drawn `req_<f m>` identifiers. -/
theorem specRewrite_request_id_values (cond : Json → Bool) (ts : String) (f : ℕ → ℕ) :
    ∀ (j : Json) (n : ℕ),
      ∀ v ∈ valuesOfKey "request_id" (specRewrite cond ts f j n).1,
        ∃ m, v = Json.str ("req_" ++ toString (f m)) := by
  apply specRewrite.induct cond ts f
    (motive_1 := fun j n =>
      ∀ v ∈ valuesOfKey "request_id" (specRewrite cond ts f j n).1,
        ∃ m, v = Json.str ("req_" ++ toString (f m)))
    (motive_2 := fun xs n =>
      ∀ v ∈ valuesOfKeyItems "request_id" (specRewriteItems cond ts f xs n).1,
        ∃ m, v = Json.str ("req_" ++ toString (f m)))
    (motive_3 := fun fs n =>
      ∀ v ∈ valuesOfKeyFields "request_id" (specRewriteFields cond ts f fs n).1,
        ∃ m, v = Json.str ("req_" ++ toString (f m)))
  · intro fs n ih
    exact fun v hv => ih v hv
  · intro xs n ih
    exact fun v hv => ih v hv
  · intro j n h1 h2
    cases j <;>
      first
        | exact (h1 _ rfl).elim
        | exact (h2 _ rfl).elim
        | simp [specRewrite, valuesOfKey]
  · intro n
    exact fun v hv => absurd hv (List.not_mem_nil v)
  · intro x rest n rx ih1 ih2
    have hrx : rx = specRewrite cond ts f x n := rfl
    rw [hrx] at ih2
    intro v hv
    simp only [specRewriteItems, valuesOfKeyItems, List.mem_append] at hv
    rcases hv with hv | hv
    · exact ih1 v hv
    · exact ih2 v hv
  · intro n
    exact fun v hv => absurd hv (List.not_mem_nil v)
  · intro k v rest n hk ih
    intro w hw
    have h3 : specRewriteFields cond ts f ((k, v) :: rest) n
        = ((k, Json.str ("req_" ++ toString (f n)))
              :: (specRewriteFields cond ts f rest (n + 1)).1,
           (specRewriteFields cond ts f rest (n + 1)).2) := by
      simp only [specRewriteFields]
      rw [if_pos hk]
    rw [h3] at hw
    simp only [valuesOfKeyFields, hk, if_true, valuesOfKey, List.mem_append,
      List.mem_singleton, List.append_nil, List.not_mem_nil, or_false] at hw
    rcases hw with hw | hw
    · exact ⟨n, hw⟩
    · exact ih w hw
  · intro k v rest n hk ht ih
    intro w hw
    have h3 : specRewriteFields cond ts f ((k, v) :: rest) n
        = ((k, Json.str ts) :: (specRewriteFields cond ts f rest n).1,
           (specRewriteFields cond ts f rest n).2) := by
      simp only [specRewriteFields]
      rw [if_neg hk, if_pos ht]
    rw [h3] at hw
    have hk' : (k == "request_id") = false := by
      simpa using hk
    simp only [valuesOfKeyFields, hk', Bool.false_eq_true, if_false, valuesOfKey,
      List.nil_append, List.mem_append, List.not_mem_nil, false_or] at hw
    exact ih w hw
  · intro k v rest n hk ht hv rv ih1 ih2
    have hrv : rv = specRewrite cond ts f v n := rfl
    rw [hrv] at ih2
    intro w hw
    have h3 : specRewriteFields cond ts f ((k, v) :: rest) n
        = ((k, (specRewrite cond ts f v n).1)
              :: (specRewriteFields cond ts f rest (specRewrite cond ts f v n).2).1,
           (specRewriteFields cond ts f rest (specRewrite cond ts f v n).2).2) := by
      simp only [specRewriteFields]
      rw [if_neg hk, if_neg ht, if_pos hv]
    rw [h3] at hw
    have hk' : (k == "request_id") = false := by
      simpa using hk
    simp only [valuesOfKeyFields, hk', Bool.false_eq_true, if_false, List.nil_append,
      List.mem_append] at hw
    rcases hw with hw | hw
    · exact ih1 w hw
    · exact ih2 w hw
  · intro k v rest n hk ht hv ih
    intro w hw
    have h3 : specRewriteFields cond ts f ((k, v) :: rest) n
        = ((k, v) :: (specRewriteFields cond ts f rest n).1,
           (specRewriteFields cond ts f rest n).2) := by
      simp only [specRewriteFields]
      rw [if_neg hk, if_neg ht, if_neg hv]
    rw [h3] at hw
    have hk' : (k == "request_id") = false := by
      simpa using hk
    have hscalar : valuesOfKey "request_id" v = [] := by
      cases v <;> first | rfl | exact absurd rfl hv
    simp only [valuesOfKeyFields, hk', Bool.false_eq_true, if_false, hscalar,
      List.nil_append, List.mem_append, List.not_mem_nil, false_or] at hw
    exact ih w hw

/-- C7, counterexample: on a document whose `timestamp` field holds the
number `0` — non-empty and non-null, but falsy in Python — the source
leaves the field alone while the claim's rewrite (condition
`nonEmptyNonNull`, as worded) overwrites it, so the two disagree. -/
theorem customize_skips_falsy_timestamp :
    customizeResponse "2025-06-01T12:00:00+00:00" (fun _ => 123456) [] c7Document
      ≠ specCustomize nonEmptyNonNull "2025-06-01T12:00:00+00:00" (fun _ => 123456)
          c7Document := by
  decide

/-- C7 (amended): customization, recursing through every nested object and
array, overwrites every timestamp-family field whose value is truthy in
Python (non-null, non-false, non-zero, non-empty) with the current UTC
ISO-8601 `+00:00` timestamp string, and every `request_id` field with a
fresh `req_<6-digit>` identifier, while leaving other fields and falsy
timestamp-family values alone — stated as equality with the spec-side
rewrite `specCustomize Json.truthy`, plus the identifier format under the
`randint(100000, 999999)` contract on the draws. -/
theorem customize_rewrites_timestamps_and_request_ids (ts : String) (f : ℕ → ℕ) (j : Json) :
    customizeResponse ts f [] j = specCustomize Json.truthy ts f j
    ∧ ((∀ i, 100000 ≤ f i ∧ f i ≤ 999999) →
        ∀ v ∈ valuesOfKey "request_id" (customizeResponse ts f [] j),
          ∃ m, 100000 ≤ m ∧ m ≤ 999999 ∧ v = Json.str ("req_" ++ toString m)) := by
  have he : customizeResponse ts f [] j = specCustomize Json.truthy ts f j := by
    unfold customizeResponse specCustomize applyOverrides
    rw [customize_passes_eq_specRewrite ts f j 0]
    rfl
  refine ⟨he, ?_⟩
  intro h6 v hv
  rw [he] at hv
  obtain ⟨m, hm⟩ := specRewrite_request_id_values Json.truthy ts f j 0 v hv
  exact ⟨f m, (h6 m).1, (h6 m).2, hm⟩

/-- C7, witness: the amended rewrite applied to `c7Document` with the
constant draw 123456. -/
theorem customize_rewrites_timestamps_and_request_ids_witness :
    (∀ i : ℕ, 100000 ≤ (fun _ : ℕ => 123456) i ∧ (fun _ : ℕ => 123456) i ≤ 999999)
    ∧ customizeResponse "T" (fun _ : ℕ => 123456) [] c7Document
        = specCustomize Json.truthy "T" (fun _ : ℕ => 123456) c7Document
    ∧ (∀ v ∈ valuesOfKey "request_id" (customizeResponse "T" (fun _ : ℕ => 123456) [] c7Document),
        ∃ m, 100000 ≤ m ∧ m ≤ 999999 ∧ v = Json.str ("req_" ++ toString m)) :=
  ⟨fun _ => ⟨by norm_num, by norm_num⟩,
   (customize_rewrites_timestamps_and_request_ids "T" (fun _ : ℕ => 123456) c7Document).1,
   (customize_rewrites_timestamps_and_request_ids "T" (fun _ : ℕ => 123456) c7Document).2
     (fun _ => ⟨by norm_num, by norm_num⟩)⟩

/-- C1: `get_response` customizes a *shallow* copy, so the stored template
is not left byte-for-byte intact.  Evaluated at a concrete fixture holding
its volatile fields one level down: after a plain customization the stored
template's nested `created` field now carries the request's timestamp
(first conjunct, refuting equality with the original), and after a
customization with a `server_type` override the stored template holds the
caller's override value — which a second, independent lookup would then
see (second conjunct, the cross-contamination the claim rules out). -/
theorem get_response_mutates_stored_template :
    storedTemplateAfterCustomize "2025-06-01T12:00:00+00:00" (fun _ => 123456) [] c1Template
      ≠ c1Template
    ∧ storedTemplateAfterCustomize "2025-06-01T12:00:00+00:00" (fun _ => 123456)
        [("server_type", Json.str "cpx31")] c1Template
      = Json.obj [("server", Json.obj
          [("id", Json.num 42),
           ("created", Json.str "2025-06-01T12:00:00+00:00"),
           ("server_type", Json.str "cpx31")])] := by
  constructor
  · decide
  · decide

/-- C9: every response the pipeline emits — rate-limited 429, injected
failure, catch-all 500, discovery, fixture hit or miss, and the
invalid-endpoint 404 — goes through `send_json_response` and carries
exactly the content header pair, the three rate-limit headers computed
from the post-admission limiter state for the requesting client, and the
three permissive CORS headers. -/
theorem every_response_carries_standard_headers (cfg : MockConfig) (store : Store)
    (st0 : ClientMap) (client method : String) (pathParts : List String)
    (query : List (String × List String)) (now nowHdr : ℚ) (ts : String) (f : ℕ → ℕ)
    (failDraw : ℚ) (failIdx : Fin 4) (exc : Option String) :
    (handleRequest cfg store st0 client method pathParts query now nowHdr ts f
        failDraw failIdx exc).1.headers
      = [("Content-Type", "application/json"),
         ("Content-Length", toString (Json.render (handleRequest cfg store st0 client method
             pathParts query now nowHdr ts f failDraw failIdx exc).1.body).length),
         ("X-RateLimit-Limit", toString cfg.rateLimitRequests),
         ("X-RateLimit-Remaining", toString (getRateLimitInfo cfg.rateLimitRequests
             cfg.rateLimitWindow (handleRequest cfg store st0 client method pathParts query
               now nowHdr ts f failDraw failIdx exc).2 client nowHdr).remaining),
         ("X-RateLimit-Reset", toString (getRateLimitInfo cfg.rateLimitRequests
             cfg.rateLimitWindow (handleRequest cfg store st0 client method pathParts query
               now nowHdr ts f failDraw failIdx exc).2 client nowHdr).reset),
         ("Access-Control-Allow-Origin", "*"),
         ("Access-Control-Allow-Methods", "GET, POST, PUT, DELETE, OPTIONS"),
         ("Access-Control-Allow-Headers", "Content-Type, Authorization")] := by
  by_cases h1 : (isRateLimitedStep cfg.rateLimitRequests cfg.rateLimitWindow st0 client now).1
      = true
  · simp [handleRequest, sendJsonResponse, getRateLimitInfo, h1]
  · by_cases h2 : failDraw < cfg.failureRate
    · simp [handleRequest, sendJsonResponse, getRateLimitInfo, h1, h2]
    · cases exc with
      | some msg => simp [handleRequest, sendJsonResponse, getRateLimitInfo, h1, h2]
      | none =>
        match pathParts with
        | [] => simp [handleRequest, sendJsonResponse, getRateLimitInfo, h1, h2]
        | [a] => simp [handleRequest, sendJsonResponse, getRateLimitInfo, h1, h2]
        | a :: b :: tl => simp [handleRequest, sendJsonResponse, getRateLimitInfo, h1, h2]

/-- C6: a rate-limited request is answered with status 429 and the
customized `hetzner` `rate-limit-exceeded` fixture as body, whatever
provider and action the path names; neither failure injection nor routing
takes place — the whole outcome is independent of the method, path, query,
failure draw and routing exception. -/
theorem rate_limited_gets_hetzner_fixture (cfg : MockConfig) (store : Store)
    (st0 : ClientMap) (client method : String) (pathParts : List String)
    (query : List (String × List String)) (now nowHdr : ℚ) (ts : String) (f : ℕ → ℕ)
    (failDraw : ℚ) (failIdx : Fin 4) (exc : Option String)
    (h : (isRateLimitedStep cfg.rateLimitRequests cfg.rateLimitWindow st0 client now).1
          = true) :
    (handleRequest cfg store st0 client method pathParts query now nowHdr ts f
        failDraw failIdx exc).1.status = 429
    ∧ (handleRequest cfg store st0 client method pathParts query now nowHdr ts f
        failDraw failIdx exc).1.body
        = getResponse store "hetzner" "rate-limit-exceeded" ts f
    ∧ (∀ (method2 : String) (pathParts2 : List String)
         (query2 : List (String × List String)) (failDraw2 : ℚ) (failIdx2 : Fin 4)
         (exc2 : Option String),
        handleRequest cfg store st0 client method2 pathParts2 query2 now nowHdr ts f
            failDraw2 failIdx2 exc2
          = handleRequest cfg store st0 client method pathParts query now nowHdr ts f
              failDraw failIdx exc) := by
  refine ⟨?_, ?_, ?_⟩ <;> simp [handleRequest, sendJsonResponse, h]

/-- C10: when the fixture store lacks the `hetzner` provider, or lacks its
`rate-limit-exceeded` scenario, a rate-limited request is still answered
with HTTP status 429, but the body is the synthesized lookup-miss envelope
(internally coded 404, `provider_not_found` or `scenario_not_found`)
instead of any rate-limit fixture. -/
theorem rate_limited_missing_fixture_body (cfg : MockConfig) (store : Store)
    (st0 : ClientMap) (client method : String) (pathParts : List String)
    (query : List (String × List String)) (now nowHdr : ℚ) (ts : String) (f : ℕ → ℕ)
    (failDraw : ℚ) (failIdx : Fin 4) (exc : Option String)
    (h : (isRateLimitedStep cfg.rateLimitRequests cfg.rateLimitWindow st0 client now).1
          = true) :
    (store.lookup "hetzner" = none →
      (handleRequest cfg store st0 client method pathParts query now nowHdr ts f
          failDraw failIdx exc).1.status = 429
      ∧ (handleRequest cfg store st0 client method pathParts query now nowHdr ts f
          failDraw failIdx exc).1.body
          = generateErrorResponse 404 "provider_not_found"
              "Provider \x27hetzner\x27 not supported" ts (f 0))
    ∧ (∀ scs, store.lookup "hetzner" = some scs → scs.lookup "rate-limit-exceeded" = none →
      (handleRequest cfg store st0 client method pathParts query now nowHdr ts f
          failDraw failIdx exc).1.status = 429
      ∧ (handleRequest cfg store st0 client method pathParts query now nowHdr ts f
          failDraw failIdx exc).1.body
          = generateErrorResponse 404 "scenario_not_found"
              "Scenario \x27rate-limit-exceeded\x27 not found for provider \x27hetzner\x27"
              ts (f 0)) := by
  constructor
  · intro hp
    constructor
    · simp [handleRequest, sendJsonResponse, h]
    · simp [handleRequest, sendJsonResponse, h, getResponse, hp]
  · intro scs hp hs
    constructor
    · simp [handleRequest, sendJsonResponse, h]
    · simp [handleRequest, sendJsonResponse, h, getResponse, hp, hs]

/-- C2 as the code implements it: a fixture-store miss on the routed path is
answered with HTTP status **200** — `handle_request` wraps every
`route_request` result in `send_json_response(200, ...)` — while the body is
the synthesized error envelope that internally says `status_code: 404` and
names the missing provider or scenario. -/
theorem lookup_miss_sends_http_200 (cfg : MockConfig) (store : Store) (st0 : ClientMap)
    (client method provider action : String) (rest : List String)
    (query : List (String × List String)) (now nowHdr : ℚ) (ts : String) (f : ℕ → ℕ)
    (failDraw : ℚ) (failIdx : Fin 4)
    (hnl : (isRateLimitedStep cfg.rateLimitRequests cfg.rateLimitWindow st0 client now).1
            = false)
    (hnf : ¬ failDraw < cfg.failureRate)
    (hact : action ≠ "test-scenarios") :
    (store.lookup provider = none →
      (handleRequest cfg store st0 client method (provider :: action :: rest) query now
          nowHdr ts f failDraw failIdx none).1.status = 200
      ∧ (handleRequest cfg store st0 client method (provider :: action :: rest) query now
          nowHdr ts f failDraw failIdx none).1.body
          = generateErrorResponse 404 "provider_not_found"
              ("Provider \x27" ++ provider ++ "\x27 not supported") ts (f 0))
    ∧ (∀ scs, store.lookup provider = some scs →
        scs.lookup (resolveScenario action query) = none →
      (handleRequest cfg store st0 client method (provider :: action :: rest) query now
          nowHdr ts f failDraw failIdx none).1.status = 200
      ∧ (handleRequest cfg store st0 client method (provider :: action :: rest) query now
          nowHdr ts f failDraw failIdx none).1.body
          = generateErrorResponse 404 "scenario_not_found"
              ("Scenario \x27" ++ resolveScenario action query
                ++ "\x27 not found for provider \x27" ++ provider ++ "\x27") ts (f 0)) := by
  constructor
  · intro hp
    constructor
    · simp [handleRequest, sendJsonResponse, hnl, hnf]
    · simp [handleRequest, sendJsonResponse, hnl, hnf, routeRequest, beq_iff_eq, hact,
        getResponse, hp]
  · intro scs hp hs
    constructor
    · simp [handleRequest, sendJsonResponse, hnl, hnf]
    · simp [handleRequest, sendJsonResponse, hnl, hnf, routeRequest, beq_iff_eq, hact,
        getResponse, hp, hs]

/-- The `scenario_map.get(action, default)` lookup agrees with the fixed
table as claim C5 spells it out. -/
theorem scenarioMapTable_lookup_spec (action : String) :
    (scenarioMapTable.lookup action).getD "success-create-server"
      = if action = "servers" ∨ action = "instances" ∨ action = "droplets"
            ∨ action = "create-server" then "success-create-server"
        else if action = "list-servers" then "success-list-servers"
        else if action = "server-status" then "success-server-status"
        else "success-create-server" := by
  by_cases h1 : action = "servers"
  · subst h1; decide
  · by_cases h2 : action = "instances"
    · subst h2; decide
    · by_cases h3 : action = "droplets"
      · subst h3; decide
      · by_cases h4 : action = "create-server"
        · subst h4; decide
        · by_cases h5 : action = "list-servers"
          · subst h5; decide
          · by_cases h6 : action = "server-status"
            · subst h6; decide
            · simp only [scenarioMapTable, List.lookup,
                show (action == "servers") = false from beq_eq_false_iff_ne.mpr h1,
                show (action == "instances") = false from beq_eq_false_iff_ne.mpr h2,
                show (action == "droplets") = false from beq_eq_false_iff_ne.mpr h3,
                show (action == "create-server") = false from beq_eq_false_iff_ne.mpr h4,
                show (action == "list-servers") = false from beq_eq_false_iff_ne.mpr h5,
                show (action == "server-status") = false from beq_eq_false_iff_ne.mpr h6]
              simp [h1, h2, h3, h4, h5, h6]

/-- The source's scenario resolution coincides with the claim's wording. -/
theorem resolveScenario_eq_claim (action : String) (query : List (String × List String)) :
    resolveScenario action query = claimScenario action query := by
  unfold resolveScenario claimScenario
  cases hq : query.lookup "scenario" with
  | none => exact scenarioMapTable_lookup_spec action
  | some vs =>
    cases vs with
    | nil => exact scenarioMapTable_lookup_spec action
    | cons v tl => rfl

/-- C5: for a routed path (second segment not `test-scenarios`) the served
scenario is the first `scenario` query value when present, else the fixed
action table's entry, else `success-create-server`; the first segment is
passed through as the provider, and the HTTP method influences nothing:
`route_request` ignores it, and the pipeline hands the first two path
segments to it unchanged whenever the request survives rate limiting and
failure injection. -/
theorem routing_resolves_action_table_and_query (store : Store)
    (provider action method : String) (query : List (String × List String))
    (ts : String) (f : ℕ → ℕ) (hact : action ≠ "test-scenarios") :
    routeRequest store provider action method query ts f
      = getResponse store provider (claimScenario action query) ts f
    ∧ (∀ method2 : String, routeRequest store provider action method2 query ts f
        = routeRequest store provider action method query ts f)
    ∧ (∀ (cfg : MockConfig) (st0 : ClientMap) (client : String) (rest : List String)
         (now nowHdr failDraw : ℚ) (failIdx : Fin 4),
        (isRateLimitedStep cfg.rateLimitRequests cfg.rateLimitWindow st0 client now).1
            = false →
        ¬ failDraw < cfg.failureRate →
        (handleRequest cfg store st0 client method (provider :: action :: rest) query
            now nowHdr ts f failDraw failIdx none).1
          = sendJsonResponse cfg.rateLimitRequests cfg.rateLimitWindow
              (isRateLimitedStep cfg.rateLimitRequests cfg.rateLimitWindow st0 client now).2
              client nowHdr 200 (routeRequest store provider action method query ts f)) := by
  refine ⟨?_, ?_, ?_⟩
  · unfold routeRequest
    rw [if_neg (by simpa using hact), resolveScenario_eq_claim]
  · intro method2
    rfl
  · intro cfg st0 client rest now nowHdr failDraw failIdx hnl hnf
    simp [handleRequest, hnl, hnf]

/-- C5, witness: `POST /aws/instances?scenario=quota-exceeded` resolves to
`quota-exceeded`, overriding the `instances` table entry, for any method. -/
theorem routing_resolves_action_table_and_query_witness :
    ("instances" ≠ "test-scenarios")
    ∧ (routeRequest [] "aws" "instances" "POST" [("scenario", ["quota-exceeded"])] "T"
          (fun _ => 123456)
        = getResponse [] "aws"
            (claimScenario "instances" [("scenario", ["quota-exceeded"])]) "T"
            (fun _ => 123456)
       ∧ (∀ method2 : String,
            routeRequest [] "aws" "instances" method2 [("scenario", ["quota-exceeded"])] "T"
                (fun _ => 123456)
              = routeRequest [] "aws" "instances" "POST" [("scenario", ["quota-exceeded"])]
                  "T" (fun _ => 123456))
       ∧ (∀ (cfg : MockConfig) (st0 : ClientMap) (client : String) (rest : List String)
            (now nowHdr failDraw : ℚ) (failIdx : Fin 4),
           (isRateLimitedStep cfg.rateLimitRequests cfg.rateLimitWindow st0 client now).1
               = false →
           ¬ failDraw < cfg.failureRate →
           (handleRequest cfg [] st0 client "POST" ("aws" :: "instances" :: rest)
               [("scenario", ["quota-exceeded"])] now nowHdr "T" (fun _ => 123456)
               failDraw failIdx none).1
             = sendJsonResponse cfg.rateLimitRequests cfg.rateLimitWindow
                 (isRateLimitedStep cfg.rateLimitRequests cfg.rateLimitWindow st0 client
                   now).2 client nowHdr 200
                 (routeRequest [] "aws" "instances" "POST"
                   [("scenario", ["quota-exceeded"])] "T" (fun _ => 123456)))) :=
  ⟨by decide,
   routing_resolves_action_table_and_query [] "aws" "instances" "POST"
     [("scenario", ["quota-exceeded"])] "T" (fun _ => 123456) (by decide)⟩

/-- C6, witness: with limit 1 and one request already inside the window,
the follow-up request at time 6 is rejected and served the `hetzner`
rate-limit body. -/
theorem rate_limited_gets_hetzner_fixture_witness :
    (isRateLimitedStep (MockConfig.mk 0 1 10).rateLimitRequests
        (MockConfig.mk 0 1 10).rateLimitWindow (fun _ => [(5 : ℚ)]) "198.51.100.9" 6).1
      = true
    ∧ ((handleRequest (MockConfig.mk 0 1 10) [] (fun _ => [(5 : ℚ)]) "198.51.100.9" "GET"
          ["hetzner", "servers"] [] 6 6 "T" (fun _ => 123456) 0 0 none).1.status = 429
       ∧ (handleRequest (MockConfig.mk 0 1 10) [] (fun _ => [(5 : ℚ)]) "198.51.100.9" "GET"
            ["hetzner", "servers"] [] 6 6 "T" (fun _ => 123456) 0 0 none).1.body
           = getResponse [] "hetzner" "rate-limit-exceeded" "T" (fun _ => 123456)
       ∧ (∀ (method2 : String) (pathParts2 : List String)
            (query2 : List (String × List String)) (failDraw2 : ℚ) (failIdx2 : Fin 4)
            (exc2 : Option String),
           handleRequest (MockConfig.mk 0 1 10) [] (fun _ => [(5 : ℚ)]) "198.51.100.9"
               method2 pathParts2 query2 6 6 "T" (fun _ => 123456) failDraw2 failIdx2 exc2
             = handleRequest (MockConfig.mk 0 1 10) [] (fun _ => [(5 : ℚ)]) "198.51.100.9"
                 "GET" ["hetzner", "servers"] [] 6 6 "T" (fun _ => 123456) 0 0 none)) :=
  ⟨by norm_num [isRateLimitedStep, admitStep, pruneRequests, List.filter_cons],
   rate_limited_gets_hetzner_fixture (MockConfig.mk 0 1 10) [] (fun _ => [(5 : ℚ)])
     "198.51.100.9" "GET" ["hetzner", "servers"] [] 6 6 "T" (fun _ => 123456) 0 0 none
     (by norm_num [isRateLimitedStep, admitStep, pruneRequests, List.filter_cons])⟩

/-- C10, witness: an empty fixture store has no `hetzner` provider, and a
rate-limited request is answered 429 with the `provider_not_found`
envelope. -/
theorem rate_limited_missing_fixture_body_witness :
    (isRateLimitedStep (MockConfig.mk 0 1 10).rateLimitRequests
        (MockConfig.mk 0 1 10).rateLimitWindow (fun _ => [(5 : ℚ)]) "198.51.100.9" 6).1
      = true
    ∧ (([] : Store).lookup "hetzner" = none →
        (handleRequest (MockConfig.mk 0 1 10) [] (fun _ => [(5 : ℚ)]) "198.51.100.9" "GET"
            ["doesnotexist", "servers"] [] 6 6 "T" (fun _ => 123456) 0 0 none).1.status = 429
        ∧ (handleRequest (MockConfig.mk 0 1 10) [] (fun _ => [(5 : ℚ)]) "198.51.100.9" "GET"
            ["doesnotexist", "servers"] [] 6 6 "T" (fun _ => 123456) 0 0 none).1.body
            = generateErrorResponse 404 "provider_not_found"
                "Provider \x27hetzner\x27 not supported" "T" 123456)
    ∧ (∀ scs, ([] : Store).lookup "hetzner" = some scs →
        scs.lookup "rate-limit-exceeded" = none →
        (handleRequest (MockConfig.mk 0 1 10) [] (fun _ => [(5 : ℚ)]) "198.51.100.9" "GET"
            ["doesnotexist", "servers"] [] 6 6 "T" (fun _ => 123456) 0 0 none).1.status = 429
        ∧ (handleRequest (MockConfig.mk 0 1 10) [] (fun _ => [(5 : ℚ)]) "198.51.100.9" "GET"
            ["doesnotexist", "servers"] [] 6 6 "T" (fun _ => 123456) 0 0 none).1.body
            = generateErrorResponse 404 "scenario_not_found"
                "Scenario \x27rate-limit-exceeded\x27 not found for provider \x27hetzner\x27"
                "T" 123456) :=
  ⟨by norm_num [isRateLimitedStep, admitStep, pruneRequests, List.filter_cons],
   rate_limited_missing_fixture_body (MockConfig.mk 0 1 10) [] (fun _ => [(5 : ℚ)])
     "198.51.100.9" "GET" ["doesnotexist", "servers"] [] 6 6 "T" (fun _ => 123456) 0 0 none
     (by norm_num [isRateLimitedStep, admitStep, pruneRequests, List.filter_cons])⟩

/-- C2, witness: `GET /doesnotexist/servers` against a store without that
provider, with no rate limiting and failure injection off. -/
theorem lookup_miss_sends_http_200_witness :
    ((isRateLimitedStep (MockConfig.mk 0 100 3600).rateLimitRequests
        (MockConfig.mk 0 100 3600).rateLimitWindow (fun _ => []) "203.0.113.7" 0).1 = false)
    ∧ (¬ (0 : ℚ) < (MockConfig.mk 0 100 3600).failureRate)
    ∧ ("servers" ≠ "test-scenarios")
    ∧ ((([] : Store).lookup "doesnotexist" = none →
        (handleRequest (MockConfig.mk 0 100 3600) [] (fun _ => []) "203.0.113.7" "GET"
            ("doesnotexist" :: "servers" :: []) [] 0 0 "T" (fun _ => 123456) 0 0
            none).1.status = 200
        ∧ (handleRequest (MockConfig.mk 0 100 3600) [] (fun _ => []) "203.0.113.7" "GET"
            ("doesnotexist" :: "servers" :: []) [] 0 0 "T" (fun _ => 123456) 0 0
            none).1.body
            = generateErrorResponse 404 "provider_not_found"
                ("Provider \x27" ++ "doesnotexist" ++ "\x27 not supported") "T" 123456)
       ∧ (∀ scs, ([] : Store).lookup "doesnotexist" = some scs →
           scs.lookup (resolveScenario "servers" []) = none →
           (handleRequest (MockConfig.mk 0 100 3600) [] (fun _ => []) "203.0.113.7" "GET"
               ("doesnotexist" :: "servers" :: []) [] 0 0 "T" (fun _ => 123456) 0 0
               none).1.status = 200
           ∧ (handleRequest (MockConfig.mk 0 100 3600) [] (fun _ => []) "203.0.113.7" "GET"
               ("doesnotexist" :: "servers" :: []) [] 0 0 "T" (fun _ => 123456) 0 0
               none).1.body
               = generateErrorResponse 404 "scenario_not_found"
                   ("Scenario \x27" ++ resolveScenario "servers" []
                     ++ "\x27 not found for provider \x27" ++ "doesnotexist" ++ "\x27")
                   "T" 123456)) :=
  ⟨by decide, by decide, by decide,
   lookup_miss_sends_http_200 (MockConfig.mk 0 100 3600) [] (fun _ => []) "203.0.113.7"
     "GET" "doesnotexist" "servers" [] [] 0 0 "T" (fun _ => 123456) 0 0
     (by decide) (by decide) (by decide)⟩
